import Mathlib

/-!
Shallow embedding of the extraction pipeline of `src/main.py` (class
`TangoScraper`): the number normalizer `_extract_number`, the directory-card
extractor `_extract_broadcaster_data`, the directory scanner
`get_live_broadcasters`, and the profile scanner `get_broadcaster_profile`.

Modelling conventions:
- Python `float` parsing of a `[\d.]+` run is exact: the value is the
  rational `n / 10 ^ d`, kept as the pair `(n, d)`; `int(...)` truncation of
  the non-negative product with the unit multiplier is natural floor
  division.
- BeautifulSoup queries are abstracted at the probe boundary: a `Fragment`
  (resp. `ProfilePage`) records, for each structural probe the code performs,
  the outcome of that probe (the matched element's text or attribute values,
  or `none` when no element matched).  The selector engine itself is not the
  subject of any property below.
- Network fetching is abstracted by a `FetchResult`: `failure` stands for any
  exception raised inside the enclosing `try` block (timeout, connection
  error, non-2xx status via `raise_for_status`, parse error); `success`
  carries the card fragments matched by `find_all`, in document order.
- `datetime.now().isoformat()` is a parameter `now` passed to each scan.
-/

/-- Python `text.lower()`, character by character (ASCII case mapping). -/
def lowerChars (s : String) : List Char := s.toList.map Char.toLower

/-- Python `text.strip()`: the string with leading and trailing whitespace
removed. -/
def pyStrip (s : String) : String :=
  String.mk (((s.toList.dropWhile Char.isWhitespace).reverse.dropWhile
      Char.isWhitespace).reverse)

/-- Python `s.startswith(pat)`. -/
def pyStartsWith (s pat : String) : Bool := pat.toList.isPrefixOf s.toList

/-- `needle` occurs as a contiguous sublist of `hay`. -/
def isSubList (needle : List Char) : List Char → Bool
  | [] => needle.isEmpty
  | c :: t => needle.isPrefixOf (c :: t) || isSubList needle t

/-- Python `pat in s` on strings: substring containment. -/
def strContains (s pat : String) : Bool := isSubList pat.toList s.toList

/-- A character matched by the regex class `[\d.]` of `re.findall(r'[\d.]+', text)`
in `_extract_number` (main.py line 97). -/
def isNumChar (c : Char) : Bool := c.isDigit || c = '.'

/-- The first maximal run of characters matching `[\d.]+`, i.e. `numbers[0]`
of `re.findall(r'[\d.]+', text)` when the list is non-empty (main.py 97-99). -/
def firstNumRun : List Char → Option (List Char)
  | [] => none
  | c :: rest =>
    if isNumChar c then some (c :: rest.takeWhile isNumChar)
    else firstNumRun rest

/-- Numeric value of a list of decimal digit characters. -/
def digitsToNat (cs : List Char) : ℕ :=
  cs.foldl (fun a c => 10 * a + (c.toNat - 48)) 0

/-- The digits after the first `'.'` of the run (empty when there is no dot). -/
def fracDigits (run : List Char) : List Char :=
  (run.dropWhile (fun c => c ≠ '.')).drop 1

/-- Python `float(run)` for a run matched by `[\d.]+` (main.py line 99):
succeeds exactly when the run holds at most one `'.'` and at least one digit;
the value `intpart.fracpart` is the exact non-negative rational `n / 10 ^ d`,
represented here by the pair `(n, d)` (`n` = all digits of the run read as a
natural number, `d` = number of digits after the dot).  A failing parse
raises `ValueError`, modelled as `none` (caught by the bare `except` of
main.py line 105). -/
def pyFloat (run : List Char) : Option (ℕ × ℕ) :=
  if run.count '.' ≤ 1 && run.any Char.isDigit then
    some (digitsToNat (run.filter Char.isDigit), (fracDigits run).length)
  else
    none

/-- The parsed magnitude of the first `[\d.]+` run of `text`, when present
and parseable (main.py lines 97-99), as a pair `(n, d)` of value `n / 10 ^ d`. -/
def numRunValue (text : String) : Option (ℕ × ℕ) :=
  (firstNumRun text.toList).bind pyFloat

/-- `TangoScraper._extract_number` (main.py lines 93-107): first `[\d.]+` run
parsed as a float; `'k'` anywhere in the lower-cased input multiplies by
1000, else `'m'` multiplies by 1000000; `int(...)` truncates; any failure
(no run, unparseable run) yields 0.  The float magnitude `n / 10 ^ d` is
exact here, so multiplying by the unit and truncating the (non-negative)
product toward zero is exactly natural floor division `n * mult / 10 ^ d`. -/
def _extract_number (text : String) : ℤ :=
  match numRunValue text with
  | none => 0
  | some (n, d) =>
    let lower := lowerChars text
    let mult : ℕ := if lower.contains 'k' then 1000
                    else if lower.contains 'm' then 1000000
                    else 1
    ((n * mult / 10 ^ d : ℕ) : ℤ)

/-! ## Directory-card path (`_extract_broadcaster_data`, `get_live_broadcasters`) -/

/-- One DOM fragment matched by the card cues of main.py line 43, abstracted
at the probe boundary: each field records the outcome of the corresponding
`find` probe of `_extract_broadcaster_data` (main.py lines 62-80).
`none` means no element matched that probe. -/
structure Fragment where
  /-- `.text` of the matched username element (line 62), if any. -/
  username_elem : Option String
  /-- `.text` of the matched viewer-count element (line 66), if any. -/
  viewers_elem : Option String
  /-- When an `img` matched (line 70): its `src` attribute — `img.get('src')`
  is `None` when the matched element carries no `src`. -/
  img_elem : Option (Option String)
  /-- `.text` of the matched title element (line 74), if any. -/
  title_elem : Option String
  /-- When the link probe of line 78 matched (an `a`, else a `div`/`span`
  with `data-href`): the chosen element's `href` and `data-href` attributes. -/
  link_elem : Option (Option String × Option String)
deriving DecidableEq, Repr

/-- The normalized record built by `_extract_broadcaster_data`
(main.py lines 59-86), one field per dict key in assignment order. -/
structure BroadcasterRecord where
  username : String
  viewers : ℤ
  /-- `img_elem.get('src') if img_elem else None`: `none` when no image
  matched or the matched image has no `src`. -/
  profile_image : Option String
  title : String
  /-- `none` models the key being absent (no link element matched);
  `some none` models the key set to Python `None`. -/
  profile_url : Option (Option String)
  timestamp : String
  is_live : Bool
deriving DecidableEq, Repr

/-- Python `a or b` on two optional strings, as in
`link_elem.get('href') or link_elem.get('data-href')` (main.py line 80):
`None` and the empty string are falsy. -/
def pyOr (a b : Option String) : Option String :=
  match a with
  | some s => if s = "" then b else some s
  | none => b

/-- The `profile_url` value of main.py line 81:
`f"https://www.tango.me{href}" if href and href.startswith('/') else href`. -/
def resolveHref (href : Option String) : Option String :=
  match href with
  | some h => if h ≠ "" ∧ pyStartsWith h "/" then
      some ("https://www.tango.me" ++ h)
    else some h
  | none => none

/-- The username resolved at main.py line 63:
`username_elem.text.strip() if username_elem else "Unknown"`. -/
def usernameOf (e : Fragment) : String :=
  match e.username_elem with
  | some t => pyStrip t
  | none => "Unknown"

/-- The dict built by `_extract_broadcaster_data` before the final sentinel
check (main.py lines 59-85). -/
def buildRecord (now : String) (e : Fragment) : BroadcasterRecord where
  username := usernameOf e
  viewers := _extract_number (match e.viewers_elem with
    | some t => t
    | none => "0")
  profile_image := match e.img_elem with
    | some s => s
    | none => none
  title := match e.title_elem with
    | some t => pyStrip t
    | none => ""
  profile_url := match e.link_elem with
    | some (h, dh) => some (resolveHref (pyOr h dh))
    | none => none
  timestamp := now
  is_live := true

/-- `TangoScraper._extract_broadcaster_data` (main.py lines 56-91):
builds the record, then returns it only when the resolved username differs
from the sentinel `"Unknown"` (line 87), else `None`.  (The `except` branch
of lines 89-91 is unreachable in this pure model: none of the probed
operations can raise once the probe outcomes are given.) -/
def _extract_broadcaster_data (now : String) (e : Fragment) :
    Option BroadcasterRecord :=
  if usernameOf e ≠ "Unknown" then some (buildRecord now e) else none

/-- Outcome of the fetch-and-parse prefix of `get_live_broadcasters`
(main.py lines 35-43): `failure` stands for any exception raised inside the
`try` block (timeout, connection error, non-2xx status, parse error);
`success` carries the fragments matched by `find_all`, in document order. -/
inductive FetchResult where
  | failure : FetchResult
  | success (fragments : List Fragment) : FetchResult
deriving DecidableEq

/-- `TangoScraper.get_live_broadcasters` (main.py lines 32-54): on success,
each matched fragment runs through `_extract_broadcaster_data` and the
non-`None` results are collected in order; on any exception the handler of
lines 52-54 returns the empty list. -/
def get_live_broadcasters (now : String) : FetchResult → List BroadcasterRecord
  | .failure => []
  | .success fragments => fragments.filterMap (_extract_broadcaster_data now)

/-! ## Profile path (`get_broadcaster_profile`) -/

/-- A successfully fetched and parsed profile page, abstracted at the probe
boundary of `get_broadcaster_profile` (main.py lines 131-147). -/
structure ProfilePage where
  /-- `.text` of every element matched by the stat cues of line 131,
  in document order. -/
  stats : List String
  /-- `.text` of the bio element of line 140, if one matched. -/
  bio_elem : Option String
  /-- When an avatar image matched (line 145): its `src` attribute —
  `img_elem.get('src')` is `None` when the element carries no `src`. -/
  avatar_img : Option (Option String)
deriving DecidableEq, Repr

/-- The `profile_data` dict of `get_broadcaster_profile`
(main.py lines 118-128), one field per key. -/
structure ProfileRecord where
  username : String
  followers : ℤ
  following : ℤ
  total_streams : ℤ
  bio : String
  /-- Seeded with `""`; overwritten at line 147 with `img_elem.get('src')`,
  which is Python `None` (modelled `none`) when the matched avatar has no
  `src` attribute. -/
  profile_image : Option String
  is_verified : Bool
  last_seen : String
  timestamp : String
deriving DecidableEq, Repr

/-- The seeded `profile_data` dict of main.py lines 118-128. -/
def initProfile (now username : String) : ProfileRecord where
  username := username
  followers := 0
  following := 0
  total_streams := 0
  bio := ""
  profile_image := some ""
  is_verified := false
  last_seen := ""
  timestamp := now

/-- One iteration of the stat loop of main.py lines 132-137: lower-case the
stat text; if it contains `"follower"` set `followers` from the original
text, else if it contains `"following"` set `following`. -/
def statStep (r : ProfileRecord) (t : String) : ProfileRecord :=
  let text := String.mk (lowerChars t)
  if strContains text "follower" then
    { r with followers := _extract_number t }
  else if strContains text "following" then
    { r with following := _extract_number t }
  else r

/-- `TangoScraper.get_broadcaster_profile` (main.py lines 109-153): on fetch
or parse failure (`none` page) the handler of lines 151-153 returns `None`;
otherwise the seeded record is updated by the stat loop, the bio probe and
the avatar probe, in that order. -/
def get_broadcaster_profile (now username : String)
    (page : Option ProfilePage) : Option ProfileRecord :=
  match page with
  | none => none
  | some p =>
    let r0 := p.stats.foldl statStep (initProfile now username)
    let r1 := match p.bio_elem with
      | some b => { r0 with bio := pyStrip b }
      | none => r0
    let r2 := match p.avatar_img with
      | some s => { r1 with profile_image := s }
      | none => r1
    some r2

/-! ## Example inputs -/

/-- A card fragment whose username element matched but whose text strips to
the empty string, with every other probe matching as well. -/
def fragEmptyName : Fragment where
  username_elem := some "  "
  viewers_elem := some "1.2K viewers"
  img_elem := some (some "https://cdn.example/pic.jpg")
  title_elem := some "hello"
  link_elem := some (some "/alice", none)

/-- A profile page whose avatar image element matched but carries no `src`
attribute. -/
def pageAvatarNoSrc : ProfilePage where
  stats := []
  bio_elem := none
  avatar_img := some none

/-- The profile page of spec §8: one stat element reading "1.5K followers",
one reading "300 following". -/
def pageBobStats : ProfilePage where
  stats := ["1.5K followers", "300 following"]
  bio_elem := none
  avatar_img := none

/-! ## Claims -/

/-- C4: `_extract_number` is a total function (a Lean `def`, so defined on
every input string and free of exceptions by construction) whose result is
never negative: malformed, empty, or negative-looking inputs yield 0, and a
parsed magnitude is a quotient of naturals, never negative. -/
theorem extract_number_total_nonneg (t : String) : 0 ≤ _extract_number t := by
  unfold _extract_number
  rcases numRunValue t with _ | ⟨n, d⟩
  · exact le_refl 0
  · exact Int.natCast_nonneg _

/-- C5: `_extract_number` parses the first digit run as the (exact) float
magnitude `n / 10 ^ d` and, scanning the whole lower-cased input, multiplies
by 1000 when `'k'` is present (whether or not `'m'` also is — `'k'` is
checked first), else by 1000000 when `'m'` is present, truncating to an
integer; and `"1.2K" ↦ 1200`, `"2M" ↦ 2000000`, `"500" ↦ 500`, `"" ↦ 0`. -/
theorem extract_number_spec :
    (_extract_number "1.2K" = 1200 ∧ _extract_number "2M" = 2000000 ∧
      _extract_number "500" = 500 ∧ _extract_number "" = 0) ∧
    (∀ t : String, (lowerChars t).contains 'k' = true →
      _extract_number t =
        match numRunValue t with
        | none => 0
        | some (n, d) => ((n * 1000 / 10 ^ d : ℕ) : ℤ)) ∧
    (∀ t : String, (lowerChars t).contains 'k' = false →
      (lowerChars t).contains 'm' = true →
      _extract_number t =
        match numRunValue t with
        | none => 0
        | some (n, d) => ((n * 1000000 / 10 ^ d : ℕ) : ℤ)) := by
  refine ⟨⟨by decide, by decide, by decide, by decide⟩, ?_, ?_⟩
  · intro t hk
    have hk2 : 'k' ∈ lowerChars t := by simpa using hk
    unfold _extract_number
    rcases numRunValue t with _ | ⟨n, d⟩
    · rfl
    · simp [hk2]
  · intro t hk hm
    have hk2 : 'k' ∉ lowerChars t := by simpa using hk
    have hm2 : 'm' ∈ lowerChars t := by simpa using hm
    unfold _extract_number
    rcases numRunValue t with _ | ⟨n, d⟩
    · rfl
    · simp [hk2, hm2]

/-- Witness for C5: `"3KM"` contains both unit letters, and `'k'` wins. -/
theorem extract_number_spec_witness : _extract_number "3KM" = 3000 :=
  (extract_number_spec.2.1 "3KM" (by decide)).trans (by decide)

/-- C2: neither scanner propagates a failure to its caller: any exception in
the fetch-and-parse prefix (modelled by the `failure` fetch outcome, resp.
the `none` page) makes `get_live_broadcasters` return the empty list and
`get_broadcaster_profile` return `None`; both are total Lean functions, so
no other outcome exists. -/
theorem scan_failure_swallowed :
    (∀ now : String, get_live_broadcasters now FetchResult.failure = []) ∧
    (∀ now username : String,
      get_broadcaster_profile now username none = none) :=
  ⟨fun _ => rfl, fun _ _ => rfl⟩

/-- C1 counterexample: a fragment whose username element exists but whose
stripped text is empty does NOT yield absent — the code only drops the
record when the resolved username equals the sentinel `"Unknown"`
(main.py line 87), and `"" != "Unknown"`. -/
theorem extract_card_empty_username_kept :
    usernameOf fragEmptyName = "" ∧
    (_extract_broadcaster_data "2024-01-01T00:00:00" fragEmptyName).isSome
      = true := by
  constructor
  · decide
  · decide

/-- C1 amended: `_extract_broadcaster_data` returns absent iff the username
resolves to the sentinel `"Unknown"` — that is, no username element matched,
or the matched element's stripped text is literally `"Unknown"`; an existing
username element with empty stripped text yields a record, not absent. -/
theorem extract_card_absent_iff_sentinel (now : String) (e : Fragment) :
    _extract_broadcaster_data now e = none ↔ usernameOf e = "Unknown" := by
  unfold _extract_broadcaster_data
  by_cases h : usernameOf e = "Unknown"
  · simp [h]
  · simp [h]

/-- C3: on a successfully fetched listing page whose card cues matched the
fragment list `fs` (document order), the scan returns exactly the records of
the fragments with resolvable (non-sentinel) usernames, in document order;
in particular the output length is the number `K` of such fragments. -/
theorem scan_live_order_and_count (now : String) (fs : List Fragment) :
    get_live_broadcasters now (FetchResult.success fs) =
      (fs.filter (fun e => usernameOf e ≠ "Unknown")).map (buildRecord now) ∧
    (get_live_broadcasters now (FetchResult.success fs)).length =
      fs.countP (fun e => usernameOf e ≠ "Unknown") := by
  have main : ∀ gs : List Fragment,
      gs.filterMap (_extract_broadcaster_data now) =
        (gs.filter (fun e => usernameOf e ≠ "Unknown")).map (buildRecord now) := by
    intro gs
    induction gs with
    | nil => rfl
    | cons e t ih =>
      rw [List.filterMap_cons, List.filter_cons]
      by_cases h : usernameOf e = "Unknown"
      · simp [_extract_broadcaster_data, h, ih]
      · simp [_extract_broadcaster_data, h, ih]
  have main : get_live_broadcasters now (FetchResult.success fs) =
      (fs.filter (fun e => usernameOf e ≠ "Unknown")).map (buildRecord now) :=
    main fs
  refine ⟨main, ?_⟩
  rw [main, List.length_map, List.countP_eq_length_filter]

/-- C6: in the card path, an extracted href beginning with `'/'` is rewritten
to `"https://www.tango.me"` prepended to it, any other href passes through
unchanged, and the record's `profile_url` is exactly this resolution of the
href extracted (`href` attribute, falling back to `data-href`) from the
matched link element. -/
theorem profile_url_resolution :
    (∀ h : String, pyStartsWith h "/" = true →
      resolveHref (some h) = some ("https://www.tango.me" ++ h)) ∧
    (∀ h : String, pyStartsWith h "/" = false →
      resolveHref (some h) = some h) ∧
    (∀ (now : String) (e : Fragment) (a dh : Option String),
      e.link_elem = some (a, dh) →
      (buildRecord now e).profile_url = some (resolveHref (pyOr a dh))) := by
  refine ⟨?_, ?_, ?_⟩
  · intro h hs
    have ne : h ≠ "" := by
      intro he
      rw [he] at hs
      exact absurd hs (by decide)
    simp only [resolveHref]
    rw [if_pos ⟨ne, hs⟩]
  · intro h hs
    have hc : ¬(h ≠ "" ∧ pyStartsWith h "/" = true) := by
      rintro ⟨-, hp⟩
      rw [hs] at hp
      exact Bool.noConfusion hp
    simp only [resolveHref]
    rw [if_neg hc]
  · intro now e a dh hle
    simp [buildRecord, hle]

/-- Witness for C6: the relative link `"/alice"` resolves to the absolute
profile URL. -/
theorem profile_url_resolution_witness :
    resolveHref (some "/alice") = some "https://www.tango.me/alice" :=
  (profile_url_resolution.1 "/alice" (by decide)).trans (by decide)

/-- One stat-loop iteration only ever touches `followers` or `following`:
every other field of the record is left unchanged. -/
theorem statStep_preserves (r : ProfileRecord) (t : String) :
    (statStep r t).username = r.username ∧
    (statStep r t).bio = r.bio ∧
    (statStep r t).profile_image = r.profile_image ∧
    (statStep r t).is_verified = r.is_verified ∧
    (statStep r t).last_seen = r.last_seen ∧
    (statStep r t).timestamp = r.timestamp := by
  unfold statStep
  by_cases h1 : strContains (String.mk (lowerChars t)) "follower" = true
  · simp [h1]
  · by_cases h2 : strContains (String.mk (lowerChars t)) "following" = true
    · simp [h1, h2]
    · simp [h1, h2]

/-- The whole stat loop only ever touches `followers` or `following`. -/
theorem statFold_preserves (stats : List String) (r : ProfileRecord) :
    (stats.foldl statStep r).username = r.username ∧
    (stats.foldl statStep r).bio = r.bio ∧
    (stats.foldl statStep r).profile_image = r.profile_image ∧
    (stats.foldl statStep r).is_verified = r.is_verified ∧
    (stats.foldl statStep r).last_seen = r.last_seen ∧
    (stats.foldl statStep r).timestamp = r.timestamp := by
  induction stats generalizing r with
  | nil => exact ⟨rfl, rfl, rfl, rfl, rfl, rfl⟩
  | cons t ts ih =>
    have hs := statStep_preserves r t
    have hf := ih (statStep r t)
    exact ⟨hf.1.trans hs.1, hf.2.1.trans hs.2.1, hf.2.2.1.trans hs.2.2.1,
      hf.2.2.2.1.trans hs.2.2.2.1, hf.2.2.2.2.1.trans hs.2.2.2.2.1,
      hf.2.2.2.2.2.trans hs.2.2.2.2.2⟩

/-- C7: the stat loop classifies each stat element by its lower-cased text:
text containing `"follower"` sets `followers` from the element's original
text via `_extract_number`; text containing `"following"` (and not
`"follower"`, which the `elif` chain checks first) sets `following`; and the
spec's example page — one stat `"1.5K followers"`, one `"300 following"` —
yields `followers = 1500` and `following = 300`. -/
theorem stat_classification :
    (∀ (r : ProfileRecord) (t : String),
      strContains (String.mk (lowerChars t)) "follower" = true →
      statStep r t = { r with followers := _extract_number t }) ∧
    (∀ (r : ProfileRecord) (t : String),
      strContains (String.mk (lowerChars t)) "follower" = false →
      strContains (String.mk (lowerChars t)) "following" = true →
      statStep r t = { r with following := _extract_number t }) ∧
    ((get_broadcaster_profile "2024-01-01T00:00:00" "bob"
        (some pageBobStats)).map (fun r => (r.followers, r.following))
      = some (1500, 300)) := by
  refine ⟨?_, ?_, ?_⟩
  · intro r t h
    simp [statStep, h]
  · intro r t h1 h2
    simp [statStep, h1, h2]
  · decide

/-- Witness for C7: a concrete followers stat. -/
theorem stat_classification_witness :
    statStep (initProfile "t0" "u0") "7 followers" =
      { initProfile "t0" "u0" with followers := _extract_number "7 followers" } :=
  stat_classification.1 (initProfile "t0" "u0") "7 followers" (by decide)

/-- C10: a stat element whose lower-cased text contains both `"follower"`
and `"following"` populates only `followers` — the `"follower"` branch is
checked first and the `elif` makes the branches mutually exclusive, so
`following` is untouched by that element. -/
theorem stat_both_substrings_followers_only (r : ProfileRecord) (t : String)
    (h1 : strContains (String.mk (lowerChars t)) "follower" = true)
    (h2 : strContains (String.mk (lowerChars t)) "following" = true) :
    (statStep r t).followers = _extract_number t ∧
    (statStep r t).following = r.following := by
  simp [statStep, h1]

/-- Witness for C10: a stat text containing both substrings. -/
theorem stat_both_substrings_witness :
    (statStep (initProfile "t1" "u1") "10 follower following").followers =
      _extract_number "10 follower following" ∧
    (statStep (initProfile "t1" "u1") "10 follower following").following =
      (initProfile "t1" "u1").following :=
  stat_both_substrings_followers_only (initProfile "t1" "u1")
    "10 follower following" (by decide) (by decide)

/-- C8 counterexample: on a page whose avatar image element matches but
carries no `src` attribute, `img_elem.get('src')` is Python `None`, so the
returned record's `profile_image` is not a string (modelled `none`), against
the claim that a matching avatar always yields a URL string. -/
theorem profile_image_not_string_on_missing_src :
    (get_broadcaster_profile "2024-01-01T00:00:00" "carol"
        (some pageAvatarNoSrc)).map ProfileRecord.profile_image
      = some none := by
  decide

/-- C8 amended: on a successfully fetched profile page, `profile_image` is
the empty string when no avatar image element matches; when one matches it is
the element's `src` attribute — a URL string when the attribute is present,
and Python `None` (not a string) when the matched element has no `src`. -/
theorem profile_image_follows_avatar_probe (now u : String) (p : ProfilePage) :
    (p.avatar_img = none →
      (get_broadcaster_profile now u (some p)).map ProfileRecord.profile_image
        = some (some "")) ∧
    (∀ s : Option String, p.avatar_img = some s →
      (get_broadcaster_profile now u (some p)).map ProfileRecord.profile_image
        = some s) := by
  unfold get_broadcaster_profile
  constructor
  · intro h
    have hp := (statFold_preserves p.stats (initProfile now u)).2.2.1
    rcases hb : p.bio_elem with _ | b <;> simp only [h, hb, Option.map_some] <;>
      exact congrArg some (hp.trans rfl)
  · intro s h
    rcases hb : p.bio_elem with _ | b <;> simp [h, hb]

/-- Witness for C8 (amended): a concrete page with no avatar match keeps the
empty-string default. -/
theorem profile_image_follows_avatar_probe_witness :
    (get_broadcaster_profile "2024-01-01T00:00:00" "bob"
        (some pageBobStats)).map ProfileRecord.profile_image
      = some (some "") :=
  (profile_image_follows_avatar_probe "2024-01-01T00:00:00" "bob"
    pageBobStats).1 rfl

/-- C9: every record returned for a successfully fetched profile page has
`is_verified = false` and `last_seen = ""` — the seeded defaults of main.py
lines 125-126, which no extraction rule ever overwrites. -/
theorem profile_placeholder_fields (now u : String) (p : ProfilePage) :
    (get_broadcaster_profile now u (some p)).map ProfileRecord.is_verified
      = some false ∧
    (get_broadcaster_profile now u (some p)).map ProfileRecord.last_seen
      = some "" := by
  unfold get_broadcaster_profile
  have hv := (statFold_preserves p.stats (initProfile now u)).2.2.2.1
  have hl := (statFold_preserves p.stats (initProfile now u)).2.2.2.2.1
  rcases hb : p.bio_elem with _ | b <;> rcases ha : p.avatar_img with _ | s <;>
    simp only [hb, ha, Option.map_some] <;>
    exact ⟨congrArg some (hv.trans rfl), congrArg some (hl.trans rfl)⟩
